import Mathlib

/-!
Shallow embedding of the retrieval-augmented email chatbot of this
repository (rag_chatbot.py and email_ai.py): the FAISS-backed retriever,
the context assembler, the task orchestrators and the error-absorbing
generation wrapper, together with proofs about them.
-/

/-- Embedding vector: a sequence of numbers.  The numeric type is `ℚ`,
standing in for the encoder's float vectors; nothing proved here depends
on float rounding. -/
abbrev Vec := List ℚ

/-- Squared Euclidean distance between two vectors, componentwise over the
common length: the metric of a flat L2 index. -/
def sqDist (u v : Vec) : ℚ := ((u.zip v).map (fun p => (p.1 - p.2) ^ 2)).sum

/-- EmailRecord (spec section 3): the fields the chatbot reads.  The Python
code reads them from a dict with `get` defaults; the spec's data model has
every field present, which this structure reflects. -/
structure Email where
  subject : String
  sender : String
  date : String
  body : String
deriving DecidableEq

def defaultEmail : Email := ⟨"", "", "", ""⟩

/-- Representation string built for each email before encoding
(`build_faiss_index`, rag_chatbot.py line 30). -/
def emailText (e : Email) : String := "Subject: " ++ e.subject ++ "\nBody: " ++ e.body

/-- Order on (position, distance) pairs realised by the index search:
ascending distance, ties by ascending stored position. -/
def scoreLE (a b : ℕ × ℚ) : Prop := a.2 < b.2 ∨ (a.2 = b.2 ∧ a.1 ≤ b.1)

instance : DecidableRel scoreLE := fun a b => by unfold scoreLE; infer_instance

instance : IsTotal (ℕ × ℚ) scoreLE where
  total a b := by
    rcases lt_trichotomy a.2 b.2 with h | h | h
    · exact Or.inl (Or.inl h)
    · rcases Nat.le_total a.1 b.1 with hn | hn
      · exact Or.inl (Or.inr ⟨h, hn⟩)
      · exact Or.inr (Or.inr ⟨h.symm, hn⟩)
    · exact Or.inr (Or.inl h)

instance : IsTrans (ℕ × ℚ) scoreLE where
  trans a b c hab hbc := by
    rcases hab with h1 | ⟨e1, n1⟩
    · rcases hbc with h2 | ⟨e2, n2⟩
      · exact Or.inl (h1.trans h2)
      · exact Or.inl (h1.trans_eq e2)
    · rcases hbc with h2 | ⟨e2, n2⟩
      · exact Or.inl (e1.trans_lt h2)
      · exact Or.inr ⟨e1.trans e2, n1.trans n2⟩

/-- Modelled from the spec: the Similarity Index search (spec section 4.2),
realised in the source by `faiss.IndexFlatL2`, a library whose code is not
part of this repository.  A flat L2 index search returns the `k` stored
vectors nearest the query by squared Euclidean distance, ascending, ties
by ascending stored position.  This is the scored part of the label row:
(stored position, squared distance) pairs. -/
def faissSearchScored (xs : List Vec) (q : Vec) (k : ℕ) : List (ℕ × ℚ) :=
  (List.insertionSort scoreLE (xs.enum.map (fun p => (p.1, sqDist q p.2)))).take k

/-- Modelled from the spec and the library's documented contract: the label
row `I[0]` returned by `index.search`.  When `k` exceeds the number of
stored vectors, the missing label slots are filled with `-1`. -/
def faissSearchIdx (xs : List Vec) (q : Vec) (k : ℕ) : List ℤ :=
  (faissSearchScored xs q k).map (fun p => (p.1 : ℤ)) ++ List.replicate (k - xs.length) (-1)

/-- Mutable state of EmailRAGChatbot: the retained email list, the encoded
vectors and the FAISS index holding those vectors; `none` models Python
`None` (rag_chatbot.py lines 19-21). -/
structure RAGState where
  emails : List Email
  email_vectors : Option (List Vec)
  faiss_index : Option (List Vec)
deriving DecidableEq

/-- State right after construction: no index, no vectors, empty list. -/
def initState : RAGState := ⟨[], none, none⟩

/-- Embedding of `build_faiss_index` (rag_chatbot.py lines 23-34): retain
`emails`; on empty input clear index and vectors; otherwise encode the
representation strings in order and build a flat L2 index over the
vectors.  `embed` is the abstract deterministic encoder (spec 4.1). -/
def build_faiss_index (embed : String → Vec) (st : RAGState) (emails : List Email) : RAGState :=
  if emails = [] then { st with emails := emails, faiss_index := none, email_vectors := none }
  else
    let vectors := (emails.map emailText).map embed
    { st with emails := emails, email_vectors := some vectors, faiss_index := some vectors }

/-- Python list indexing: a negative index counts from the end; an access
that is still out of range has no value (IndexError). -/
def pyGet {α : Type} (xs : List α) (i : ℤ) : Option α :=
  let j : ℤ := if i < 0 then (xs.length : ℤ) + i else i
  if 0 ≤ j then xs[j.toNat]? else none

/-- Embedding of `search_emails_faiss` (rag_chatbot.py lines 36-42): guard
on an unset index or empty email list, encode the query, run the index
search, then keep `self.emails[i]` for each label `i` passing the filter
`i < len(self.emails)`. -/
def search_emails_faiss (embed : String → Vec) (st : RAGState) (query : String)
    (top_k : ℕ) : List Email :=
  match st.faiss_index with
  | none => []
  | some xs =>
    if st.emails = [] then []
    else
      let query_vec := embed query
      let labels := faissSearchIdx xs query_vec top_k
      (labels.filter (fun i => decide (i < (st.emails.length : ℤ)))).filterMap
        (fun i => pyGet st.emails i)

/-- Generation backend: a prompt either yields text or raises an exception
carrying a message (`Except.error`). -/
abbrev GenBackend := String → Except String String

/-- Fixed apology string returned when generation fails, embedding the
underlying error message (both copies of `_generate_response`). -/
def apologyText (e : String) : String :=
  "Sorry, I couldn\x27t generate a response at this time. Error: " ++ e

/-- Embedding of `EmailRAGChatbot._generate_response` (rag_chatbot.py lines
44-50): call the provider; on an exception, report it to the UI (a side
effect outside the core) and return the apology string. -/
def _generate_response (gen : GenBackend) (prompt : String) : String :=
  match gen prompt with
  | .ok r => r
  | .error e => apologyText e

/-- One numbered block of the email context (rag_chatbot.py lines 57-63). -/
def emailBlock (i : ℕ) (e : Email) : String :=
  "\nEmail " ++ toString i ++ ":\n- Subject: " ++ e.subject ++ "\n- From: " ++ e.sender
    ++ "\n- Date: " ++ e.date ++ "\n- Content: " ++ e.body ++ "\n---"

/-- Embedding of `create_email_context` (rag_chatbot.py lines 52-64), the
Context Assembler: fixed sentinel on empty input, otherwise the numbered
blocks (enumerate from 1) joined by newlines. -/
def create_email_context (emails : List Email) : String :=
  if emails = [] then "No emails available for context."
  else String.intercalate "\n" (emails.enum.map (fun p => emailBlock (p.1 + 1) p.2))

/-- Prompt template of `answer_question` (rag_chatbot.py lines 73-88). -/
def answerTemplate (context question : String) : String :=
  "\nYou are an AI assistant that helps users understand their emails. You have access to the following email context:\n\n"
    ++ context ++ "\n\nUser Question: " ++ question
    ++ "\n\nPlease provide a comprehensive answer based on the email context above. Your response should:\n\n1. Directly address the user\x27s question\n2. Reference specific emails when relevant\n3. Provide actionable insights when possible\n4. Be clear and concise\n5. If the question cannot be answered with the provided context, say so clearly\n\nAnswer:"

/-- Embedding of `answer_question` (rag_chatbot.py lines 66-89): fixed
guidance on an empty working set; otherwise rebuild the index over the
given emails, retrieve the top `min(5, len(emails))`, assemble context,
fill the template, generate.  Returns the successor state (the method
mutates self via the rebuild) with the answer text. -/
def answer_question (embed : String → Vec) (gen : GenBackend) (st : RAGState)
    (question : String) (emails : List Email) : RAGState × String :=
  if emails = [] then
    (st, "No emails are available to answer your question. Please select some emails first.")
  else
    let st1 := build_faiss_index embed st emails
    let relevant := search_emails_faiss embed st1 question (min 5 emails.length)
    let context := create_email_context relevant
    (st1, _generate_response gen (answerTemplate context question))

/-- Fixed question list returned on an empty working set (rag_chatbot.py
lines 93-99). -/
def fixedQuestions1 : List String :=
  ["What are the main topics in my recent emails?",
   "Who are the most frequent senders?",
   "Are there any urgent emails I should prioritize?",
   "What meetings or events are mentioned?",
   "Are there any action items I need to follow up on?"]

/-- Fixed fallback question list used when the parsed list is empty
(rag_chatbot.py lines 114-120). -/
def fixedQuestions2 : List String :=
  ["What are the main topics in these emails?",
   "Who are the key senders and what do they want?",
   "Are there any deadlines or urgent matters mentioned?",
   "What meetings or events are scheduled?",
   "Are there any action items I need to address?"]

/-- Python `str.strip()`: drop whitespace from both ends. -/
def pyStrip (s : String) : String :=
  String.mk (((s.data.dropWhile Char.isWhitespace).reverse.dropWhile Char.isWhitespace).reverse)

/-- Parsing of the generated question list (rag_chatbot.py line 112): split
on newlines, keep lines that strip to a non-empty string and contain a
question mark, stripped. -/
def parseQuestions (response : String) : List String :=
  (response.splitOn "\n").filterMap (fun q =>
    if pyStrip q ≠ "" ∧ '?' ∈ q.data then some (pyStrip q) else none)

/-- Prompt template of `suggest_questions` (rag_chatbot.py lines 102-110). -/
def suggestTemplate (context : String) : String :=
  "\nBased on these emails:\n\n" ++ context
    ++ "\n\nGenerate 5 relevant questions that a user might want to ask about these emails. \nFocus on practical, actionable questions that would help someone understand and manage their emails better.\n\nFormat as a simple list, one question per line:"

/-- Embedding of `suggest_questions` (rag_chatbot.py lines 91-121): fixed
list on an empty working set without generating; otherwise index and
assemble context from the first 5 emails only, generate, parse, fall back
to the second fixed list when the parse is empty, and return at most 5. -/
def suggest_questions (embed : String → Vec) (gen : GenBackend) (st : RAGState)
    (emails : List Email) : RAGState × List String :=
  if emails = [] then (st, fixedQuestions1)
  else
    let st1 := build_faiss_index embed st (emails.take 5)
    let context := create_email_context (emails.take 5)
    let response := _generate_response gen (suggestTemplate context)
    let qs := parseQuestions response
    let qs2 := if qs = [] then fixedQuestions2 else qs
    (st1, qs2.take 5)

/-- Embedding of `search_emails_by_content` (rag_chatbot.py lines 142-146):
retrieval-only; rebuild the index over the given emails and search with
`top_k = 10`. -/
def search_emails_by_content (embed : String → Vec) (st : RAGState)
    (query : String) (emails : List Email) : RAGState × List Email :=
  if emails = [] then (st, [])
  else
    let st1 := build_faiss_index embed st emails
    (st1, search_emails_faiss embed st1 query 10)

/-- Embedding of `EmailAI._generate_response` (email_ai.py lines 15-21),
the identical error-absorbing wrapper of the per-email tasks. -/
def emailAI_generate_response (gen : GenBackend) (prompt : String) : String :=
  match gen prompt with
  | .ok r => r
  | .error e => apologyText e

/-- Prompt template of `summarize_email` (email_ai.py lines 25-41). -/
def summarizeTemplate (e : Email) : String :=
  "\n        Please provide a concise summary of this email:\n        \n        Subject: " ++ e.subject
    ++ "\n        From: " ++ e.sender ++ "\n        Date: " ++ e.date
    ++ "\n        \n        Content: " ++ e.body
    ++ "\n        \n        Summary should include:\n        1. Main topic/purpose\n        2. Key points\n        3. Action items (if any)\n        4. Urgency level (Low/Medium/High)\n        \n        Please format the summary clearly and concisely.\n        "

/-- Embedding of `summarize_email` (email_ai.py lines 23-43). -/
def summarize_email (gen : GenBackend) (e : Email) : String :=
  emailAI_generate_response gen (summarizeTemplate e)

/-- Number of vectors stored in the similarity index (its `ntotal`); an
unset index stores none. -/
def indexSize (st : RAGState) : ℕ :=
  match st.faiss_index with
  | none => 0
  | some xs => xs.length

/-- Deterministic sample encoder used in concrete evaluations: the length
of the text as a one-dimensional vector. -/
def embedLen : String → Vec := fun s => [(s.length : ℚ)]

/-- Sample email used in concrete evaluations. -/
def sampleEmail : Email := ⟨"Meeting tomorrow", "a@x.com", "2024-01-01", "Lets meet at 3pm"⟩

/-- Sample two-email working set used in concrete evaluations. -/
def sampleEmails2 : List Email := [⟨"a", "s", "d", "b1"⟩, ⟨"c", "s", "d", "b2"⟩]

lemma filterMap_congr_map {α β : Type} {f : α → Option β} {g : α → β}
    {l : List α} (h : ∀ x ∈ l, f x = some (g x)) : l.filterMap f = l.map g := by
  induction l with
  | nil => rfl
  | cons a t ih =>
    rw [List.filterMap_cons, h a (List.mem_cons_self a t), List.map_cons,
      ih (fun x hx => h x (List.mem_cons_of_mem a hx))]

lemma pyGet_natCast {α : Type} (xs : List α) (m : ℕ) : pyGet xs (m : ℤ) = xs[m]? := by
  have h0 : ¬ ((m : ℤ) < 0) := by omega
  have h1 : (0 : ℤ) ≤ (m : ℤ) := by omega
  simp [pyGet, h0, h1]

lemma pyGet_lt_length {α : Type} (xs : List α) (m : ℕ) (hm : m < xs.length) (d : α) :
    pyGet xs (m : ℤ) = some (xs.getD m d) := by
  rw [pyGet_natCast, List.getElem?_eq_getElem hm, List.getD_eq_getElem?_getD,
    List.getElem?_eq_getElem hm]
  rfl

lemma pyGet_neg_one {α : Type} (xs : List α) (hxs : xs ≠ []) :
    pyGet xs (-1) = some (xs.getLast hxs) := by
  have hlen : 0 < xs.length := List.length_pos.mpr hxs
  have h1 : ((xs.length : ℤ) + -1).toNat = xs.length - 1 := by omega
  have h2 : ((-1 : ℤ) < 0) := by omega
  have h3 : (0 : ℤ) ≤ (xs.length : ℤ) + -1 := by omega
  simp only [pyGet, if_pos h2, if_pos h3, h1]
  rw [List.getLast_eq_getElem, List.getElem?_eq_getElem (by omega)]

lemma mem_faissSearchScored {xs : List Vec} {q : Vec} {k : ℕ} {p : ℕ × ℚ}
    (hp : p ∈ faissSearchScored xs q k) :
    p.1 < xs.length ∧ p.2 = sqDist q (xs.getD p.1 []) := by
  unfold faissSearchScored at hp
  have h1 := List.mem_of_mem_take hp
  have h2 : p ∈ xs.enum.map (fun p => (p.1, sqDist q p.2)) :=
    (List.perm_insertionSort _ _).mem_iff.mp h1
  rcases List.mem_map.mp h2 with ⟨a, ha, rfl⟩
  rcases List.getElem?_eq_some.mp (List.mem_enum_iff_getElem?.mp ha) with ⟨hlt, hget⟩
  refine ⟨hlt, ?_⟩
  simp [List.getD_eq_getElem?_getD, List.getElem?_eq_getElem hlt, hget]

lemma pairwise_faissSearchScored (xs : List Vec) (q : Vec) (k : ℕ) :
    (faissSearchScored xs q k).Pairwise
      (fun a b => a.2 < b.2 ∨ (a.2 = b.2 ∧ a.1 < b.1)) := by
  unfold faissSearchScored
  apply List.Pairwise.sublist (List.take_sublist _ _)
  have henum : xs.enum.Pairwise (fun a b => a.1 < b.1) := by
    have h := List.pairwise_lt_range xs.length
    rw [← List.enum_map_fst xs] at h
    exact List.pairwise_map.mp h
  have hL : (xs.enum.map (fun p => (p.1, sqDist q p.2))).Pairwise
      (fun a b => a.1 ≠ b.1) := by
    rw [List.pairwise_map]
    exact henum.imp (fun h => Nat.ne_of_lt h)
  have hsortne : (List.insertionSort scoreLE (xs.enum.map (fun p => (p.1, sqDist q p.2)))).Pairwise
      (fun a b => a.1 ≠ b.1) :=
    ((List.perm_insertionSort scoreLE _).pairwise_iff (fun h => Ne.symm h)).mpr hL
  have hsorted := List.sorted_insertionSort scoreLE (xs.enum.map (fun p => (p.1, sqDist q p.2)))
  refine (hsorted.and hsortne).imp ?_
  rintro a b ⟨hle | ⟨heq, hle⟩, hne⟩
  · exact Or.inl hle
  · exact Or.inr ⟨heq, lt_of_le_of_ne hle hne⟩

lemma search_decomp (embed : String → Vec) (st : RAGState) (E : List Email)
    (q : String) (k : ℕ) (hE : E ≠ []) :
    search_emails_faiss embed (build_faiss_index embed st E) q k
      = (faissSearchScored ((E.map emailText).map embed) (embed q) k).map
          (fun p => E.getD p.1 defaultEmail)
        ++ List.replicate (k - E.length) (E.getLast hE) := by
  have hvlen : ((E.map emailText).map embed).length = E.length := by simp
  have hfi : (build_faiss_index embed st E).faiss_index = some ((E.map emailText).map embed) := by
    unfold build_faiss_index
    rw [if_neg hE]
  have hem : (build_faiss_index embed st E).emails = E := by
    unfold build_faiss_index
    rw [if_neg hE]
  rw [search_emails_faiss, hfi, hem]
  dsimp only
  rw [if_neg hE]
  rw [faissSearchIdx, List.filter_append, List.filterMap_append]
  have hlen1 : (0 : ℤ) < (E.length : ℤ) := by
    have := List.length_pos.mpr hE
    omega
  congr 1
  · rw [List.filter_map]
    have hall : ∀ p ∈ faissSearchScored ((E.map emailText).map embed) (embed q) k,
        ((fun i => decide (i < (E.length : ℤ))) ∘ fun p => ((p.1 : ℕ) : ℤ)) p = true := by
      intro p hp
      have h1 := (mem_faissSearchScored hp).1
      rw [hvlen] at h1
      simp only [Function.comp_apply, decide_eq_true_eq]
      omega
    rw [List.filter_eq_self.mpr hall, List.filterMap_map]
    apply filterMap_congr_map
    intro p hp
    have h1 := (mem_faissSearchScored hp).1
    rw [hvlen] at h1
    exact pyGet_lt_length E p.1 h1 defaultEmail
  · rw [hvlen, List.filter_replicate]
    rw [if_pos (by simp only [decide_eq_true_eq]; omega)]
    rw [filterMap_congr_map (g := fun _ => E.getLast hE) ?_, List.map_replicate]
    intro x hx
    rw [List.eq_of_mem_replicate hx]
    exact pyGet_neg_one E hE

lemma faissSearchScored_length (xs : List Vec) (q : Vec) (k : ℕ) :
    (faissSearchScored xs q k).length = min k xs.length := by
  unfold faissSearchScored
  rw [List.length_take, List.length_insertionSort, List.length_map, List.enum_length]

lemma search_length_formula (embed : String → Vec) (st : RAGState) (E : List Email)
    (q : String) (k : ℕ) (hE : E ≠ []) :
    (search_emails_faiss embed (build_faiss_index embed st E) q k).length
      = min k E.length + (k - E.length) := by
  rw [search_decomp embed st E q k hE, List.length_append, List.length_map,
    List.length_replicate, faissSearchScored_length]
  simp

lemma mem_dropWhile_of_mem {α : Type} {p : α → Bool} {l : List α} {x : α}
    (hx : x ∈ l) (hpx : p x = false) : x ∈ l.dropWhile p := by
  induction l with
  | nil => cases hx
  | cons a t ih =>
    rcases List.mem_cons.mp hx with rfl | h
    · simp [List.dropWhile_cons, hpx]
    · by_cases ha : p a = true
      · simpa [List.dropWhile_cons, ha] using ih h
      · simp only [List.dropWhile_cons, if_neg ha]
        exact List.mem_cons_of_mem a h

lemma mem_pyStrip_of_mem {s : String} {c : Char} (hc : c ∈ s.data)
    (hw : c.isWhitespace = false) : c ∈ (pyStrip s).data := by
  show c ∈ ((s.data.dropWhile Char.isWhitespace).reverse.dropWhile Char.isWhitespace).reverse
  rw [List.mem_reverse]
  refine mem_dropWhile_of_mem ?_ hw
  rw [List.mem_reverse]
  exact mem_dropWhile_of_mem hc hw

lemma parseQuestions_mem {response s : String} (hs : s ∈ parseQuestions response) :
    '?' ∈ s.data := by
  unfold parseQuestions at hs
  rcases List.mem_filterMap.mp hs with ⟨q, hq, hcond⟩
  by_cases hc : pyStrip q ≠ "" ∧ '?' ∈ q.data
  · rw [if_pos hc] at hcond
    obtain rfl : pyStrip q = s := by injection hcond
    exact mem_pyStrip_of_mem hc.2 (by decide)
  · rw [if_neg hc] at hcond
    cases hcond

lemma questions_clip_bounds (qs : List String) (h : ∀ s ∈ qs, '?' ∈ s.data) :
    1 ≤ ((if qs = [] then fixedQuestions2 else qs).take 5).length
    ∧ ((if qs = [] then fixedQuestions2 else qs).take 5).length ≤ 5
    ∧ ∀ s ∈ (if qs = [] then fixedQuestions2 else qs).take 5, '?' ∈ s.data := by
  by_cases hnil : qs = []
  · subst hnil
    rw [if_pos rfl]
    refine ⟨by decide, by decide, ?_⟩
    intro s hs
    have h5 : s ∈ fixedQuestions2 := List.mem_of_mem_take hs
    fin_cases h5 <;> decide
  · rw [if_neg hnil]
    have hpos : 0 < qs.length := List.length_pos.mpr hnil
    refine ⟨?_, ?_, ?_⟩
    · rw [List.length_take]
      omega
    · rw [List.length_take]
      omega
    · intro s hs
      exact h s (List.mem_of_mem_take hs)

/-- C1: the claimed clamping law fails on the code.  With exactly one
indexed email, the content-search path (which always passes k = 10)
returns 10 results instead of min(10, 1) = 1: the FAISS padding label -1
passes the filter `i < len(self.emails)` and Python negative indexing
resolves it to the last email.  This theorem evaluates the code at that
failing input. -/
theorem content_search_length_not_clamped :
    ((search_emails_by_content embedLen initState "meeting" [sampleEmail]).2).length = 10
    ∧ ((search_emails_by_content embedLen initState "meeting" [sampleEmail]).2).length ≠ min 10 1 := by
  constructor
  · decide
  · decide

/-- C2: for every non-empty indexed email list E and every k greater than
its length, a search returns k entries, not len(E): the result is the
properly retrieved part (len(E) entries, all from E) followed by the last
email of E repeated once per padded slot, and no exception is raised (the
function is total and every index access succeeds). -/
theorem search_pads_with_last_email (embed : String → Vec) (st : RAGState)
    (q : String) (E : List Email) (k : ℕ) (hE : E ≠ []) (hk : E.length < k) :
    (search_emails_faiss embed (build_faiss_index embed st E) q k).length = k ∧
    ∃ main : List Email,
      search_emails_faiss embed (build_faiss_index embed st E) q k
        = main ++ List.replicate (k - E.length) (E.getLast hE)
      ∧ main.length = E.length ∧ ∀ x ∈ main, x ∈ E := by
  constructor
  · rw [search_length_formula embed st E q k hE]
    omega
  · refine ⟨(faissSearchScored ((E.map emailText).map embed) (embed q) k).map
      (fun p => E.getD p.1 defaultEmail), search_decomp embed st E q k hE, ?_, ?_⟩
    · rw [List.length_map, faissSearchScored_length]
      simp only [List.length_map]
      omega
    · intro x hx
      rcases List.mem_map.mp hx with ⟨p, hp, rfl⟩
      have h1 := (mem_faissSearchScored hp).1
      simp only [List.length_map] at h1
      rw [List.getD_eq_getElem E defaultEmail h1]
      exact List.getElem_mem h1

theorem search_pads_with_last_email_witness :
    (([sampleEmail] : List Email) ≠ []) ∧ ([sampleEmail] : List Email).length < 3 ∧
    (search_emails_faiss embedLen (build_faiss_index embedLen initState [sampleEmail]) "q" 3).length = 3 :=
  ⟨by decide, by decide,
    (search_pads_with_last_email embedLen initState "q" [sampleEmail] 3 (by decide) (by decide)).1⟩

/-- C3: search results are ordered by ascending squared Euclidean distance
between the query vector and the stored vectors, ties broken by ascending
original insertion position; every scored entry names a stored position
and carries exactly its distance to the query; and the emails a search
returns are the emails at those positions in that order (followed by the
padded tail when k exceeds the index size). -/
theorem search_results_sorted (embed : String → Vec) (st : RAGState) (E : List Email)
    (q : String) (k : ℕ) :
    ((faissSearchScored ((E.map emailText).map embed) (embed q) k).Pairwise
      (fun a b => a.2 < b.2 ∨ (a.2 = b.2 ∧ a.1 < b.1)))
    ∧ (∀ p ∈ faissSearchScored ((E.map emailText).map embed) (embed q) k,
        p.1 < E.length ∧ p.2 = sqDist (embed q) (((E.map emailText).map embed).getD p.1 []))
    ∧ (∀ hE : E ≠ [], search_emails_faiss embed (build_faiss_index embed st E) q k
        = (faissSearchScored ((E.map emailText).map embed) (embed q) k).map
            (fun p => E.getD p.1 defaultEmail)
          ++ List.replicate (k - E.length) (E.getLast hE)) := by
  refine ⟨pairwise_faissSearchScored _ _ _, ?_, fun hE => search_decomp embed st E q k hE⟩
  intro p hp
  have h := mem_faissSearchScored hp
  simp only [List.length_map] at h
  exact h

theorem search_results_sorted_witness :
    ((faissSearchScored ((sampleEmails2.map emailText).map embedLen) (embedLen "q") 2).Pairwise
      (fun a b => a.2 < b.2 ∨ (a.2 = b.2 ∧ a.1 < b.1)))
    ∧ search_emails_faiss embedLen (build_faiss_index embedLen initState sampleEmails2) "q" 2
        = (faissSearchScored ((sampleEmails2.map emailText).map embedLen) (embedLen "q") 2).map
            (fun p => sampleEmails2.getD p.1 defaultEmail)
          ++ List.replicate (2 - sampleEmails2.length) (sampleEmails2.getLast (by decide)) :=
  ⟨(search_results_sorted embedLen initState sampleEmails2 "q" 2).1,
   (search_results_sorted embedLen initState sampleEmails2 "q" 2).2.2 (by decide)⟩

/-- C4: building from the empty email list clears the index state (index
and vector fields both cleared), and a search against an index built from
the empty list, or against a never-built index, returns the empty list
without error, for every query and every k. -/
theorem search_empty_index_nil (embed : String → Vec) (st : RAGState) (q : String) (k : ℕ) :
    search_emails_faiss embed (build_faiss_index embed st []) q k = []
    ∧ (build_faiss_index embed st []).faiss_index = none
    ∧ (build_faiss_index embed st []).email_vectors = none
    ∧ search_emails_faiss embed initState q k = [] :=
  ⟨rfl, rfl, rfl, rfl⟩

/-- C5: if the generation backend raises on the summarization prompt, then
summarize_email returns a normal string: the fixed apology embedding the
underlying error message, containing the literal substring mentioned in
the spec; and the chatbot's own wrapper does the same for every prompt.
No exception propagates (the embedded functions are total). -/
theorem summarize_absorbs_generation_failure (gen : GenBackend) (e : Email) (msg : String)
    (h : gen (summarizeTemplate e) = Except.error msg) :
    summarize_email gen e = apologyText msg
    ∧ (∃ pre post, summarize_email gen e = pre ++ "couldn\x27t generate a response" ++ post)
    ∧ (∀ gen2 p m2, gen2 p = Except.error m2 → _generate_response gen2 p = apologyText m2) := by
  refine ⟨?_, ?_, ?_⟩
  · unfold summarize_email emailAI_generate_response
    rw [h]
  · refine ⟨"Sorry, I ", " at this time. Error: " ++ msg, ?_⟩
    unfold summarize_email emailAI_generate_response
    rw [h]
    show apologyText msg = _
    unfold apologyText
    rw [← String.append_assoc]
    rfl
  · intro gen2 p m2 hm
    unfold _generate_response
    rw [hm]

theorem summarize_absorbs_generation_failure_witness :
    summarize_email (fun _ => Except.error "boom") sampleEmail = apologyText "boom" :=
  (summarize_absorbs_generation_failure (fun _ => Except.error "boom") sampleEmail "boom" rfl).1

/-- C6: for every email list, suggest_questions returns between 1 and 5
items and every returned item contains a question mark; on the empty list
it returns exactly the five fixed generic questions with the state
untouched, identically for every generation backend (so the backend is
never invoked on that path). -/
theorem suggest_questions_bounds (embed : String → Vec) (gen : GenBackend)
    (st : RAGState) (E : List Email) :
    1 ≤ (suggest_questions embed gen st E).2.length
    ∧ (suggest_questions embed gen st E).2.length ≤ 5
    ∧ (∀ s ∈ (suggest_questions embed gen st E).2, '?' ∈ s.data)
    ∧ (E = [] → suggest_questions embed gen st E = (st, fixedQuestions1)) := by
  by_cases hE : E = []
  · subst hE
    refine ⟨?_, ?_, ?_, fun _ => rfl⟩
    · show 1 ≤ fixedQuestions1.length
      decide
    · show fixedQuestions1.length ≤ 5
      decide
    · intro s hs
      have h1 : s ∈ fixedQuestions1 := hs
      fin_cases h1 <;> decide
  · unfold suggest_questions
    rw [if_neg hE]
    dsimp only
    have hb := questions_clip_bounds
      (parseQuestions (_generate_response gen (suggestTemplate (create_email_context (E.take 5)))))
      (fun s hs => parseQuestions_mem hs)
    exact ⟨hb.1, hb.2.1, hb.2.2, fun h => absurd h hE⟩

theorem suggest_questions_bounds_witness :
    suggest_questions embedLen (fun _ => Except.ok "") initState [] = (initState, fixedQuestions1) :=
  (suggest_questions_bounds embedLen (fun _ => Except.ok "") initState []).2.2.2 rfl

/-- C7: for every question, answer_question on the empty email list
returns the fixed guidance string with the state untouched, identically
for every generation backend and encoder (so neither indexing, retrieval
nor generation happens on that path). -/
theorem answer_question_empty_guidance (embed : String → Vec) (gen : GenBackend)
    (st : RAGState) (q : String) :
    answer_question embed gen st q []
      = (st, "No emails are available to answer your question. Please select some emails first.") :=
  rfl

/-- C8 counterexample: on the empty list the assembler returns the
capitalized, period-terminated sentinel, so it is not equal to the
lowercase string the claim quotes. -/
theorem context_sentinel_counterexample :
    create_email_context [] ≠ "no emails available for context" := by
  decide

/-- C8 amended: assemble applied to the empty email list returns the fixed
sentinel string, spelled exactly (capitalized, with a final period), and
never the empty string. -/
theorem context_sentinel_empty :
    create_email_context [] = "No emails available for context."
    ∧ create_email_context [] ≠ "" :=
  ⟨rfl, by decide⟩

/-- C9: after every build, the number of vectors stored in the similarity
index equals the number of emails passed to the build, and the retained
email list is exactly the build input.  Searches do not mutate state (they
are pure reads in the source, hence pure functions here), and the rebuilds
performed inside the orchestrators re-establish the invariant for the
email list each passes to its build (answer_question builds over all its
emails, suggest_questions over the first five). -/
theorem index_size_eq_build_input (embed : String → Vec) (st : RAGState) (E : List Email) :
    indexSize (build_faiss_index embed st E) = E.length
    ∧ (build_faiss_index embed st E).emails = E
    ∧ (∀ gen q, E ≠ [] → indexSize (answer_question embed gen st q E).1 = E.length)
    ∧ (∀ gen, E ≠ [] → indexSize (suggest_questions embed gen st E).1 = (E.take 5).length) := by
  by_cases hE : E = []
  · subst hE
    exact ⟨rfl, rfl, fun gen q h => absurd rfl h, fun gen h => absurd rfl h⟩
  · refine ⟨?_, ?_, ?_, ?_⟩
    · unfold indexSize build_faiss_index
      rw [if_neg hE]
      simp
    · unfold build_faiss_index
      rw [if_neg hE]
    · intro gen q h
      unfold answer_question
      rw [if_neg hE]
      dsimp only
      unfold indexSize build_faiss_index
      rw [if_neg hE]
      simp
    · intro gen h
      have h5 : E.take 5 ≠ [] := by
        rw [Ne, List.take_eq_nil_iff]
        push_neg
        exact ⟨by norm_num, hE⟩
      unfold suggest_questions
      rw [if_neg hE]
      dsimp only
      unfold indexSize build_faiss_index
      rw [if_neg h5]
      simp

theorem index_size_eq_build_input_witness :
    (([sampleEmail] : List Email) ≠ [])
    ∧ indexSize (build_faiss_index embedLen initState [sampleEmail]) = 1
    ∧ indexSize (answer_question embedLen (fun _ => Except.ok "ok") initState "q" [sampleEmail]).1 = 1 :=
  ⟨by decide,
   (index_size_eq_build_input embedLen initState [sampleEmail]).1,
   (index_size_eq_build_input embedLen initState [sampleEmail]).2.2.1 _ "q" (by decide)⟩

/-- C10: for every non-empty email list, suggest_questions returns the
same state and the same questions as on the first five emails alone, and
fills its prompt template from the same context, so emails beyond
position 4 have no influence on the output or on the generation call. -/
theorem suggest_questions_first_five_only (embed : String → Vec) (gen : GenBackend)
    (st : RAGState) (E : List Email) (hE : E ≠ []) :
    suggest_questions embed gen st E = suggest_questions embed gen st (E.take 5)
    ∧ suggestTemplate (create_email_context (E.take 5))
        = suggestTemplate (create_email_context ((E.take 5).take 5)) := by
  have h5 : (E.take 5).take 5 = E.take 5 := by
    rw [List.take_take, min_self]
  have hE5 : E.take 5 ≠ [] := by
    rw [Ne, List.take_eq_nil_iff]
    push_neg
    exact ⟨by norm_num, hE⟩
  constructor
  · unfold suggest_questions
    rw [if_neg hE, if_neg hE5, h5]
  · rw [h5]

theorem suggest_questions_first_five_only_witness :
    (([sampleEmail] : List Email) ≠ [])
    ∧ suggest_questions embedLen (fun _ => Except.ok "") initState [sampleEmail]
        = suggest_questions embedLen (fun _ => Except.ok "") initState ([sampleEmail].take 5) :=
  ⟨by decide,
   (suggest_questions_first_five_only embedLen (fun _ => Except.ok "") initState [sampleEmail] (by decide)).1⟩
